import Mathlib

/-!
Verification development for the MC_HW_2 reporting scripts
(`new_analyze_results.py`, `OLD PLOT/analyze_results.py`, `plot.py`).

The scripts are shallowly embedded below: strings are `List Char`,
Python's `re` module is embedded by a small backtracking matcher that
covers exactly the constructs appearing in the scripts' patterns
(literal characters, `\d`, `[^_]`, `.`, greedy `+`, numbered groups,
`$`), Python `int()` / `float()` / `str` helpers are modelled for the
ASCII inputs the scripts process, and raised exceptions are modelled
with `Except Unit` (or `Option` where only failure matters).
-/

/-! ## Python string and number primitives -/

/-- Whitespace stripped by Python's `str.strip()` and `int()` (ASCII subset;
the scripts only process ASCII data). -/
def isPySpace (c : Char) : Bool :=
  c == ' ' || c == '\t' || c == '\n' || c == '\r' || c == '\x0b' || c == '\x0c'

/-- Python `str.strip()`: remove leading and trailing whitespace. -/
def pyStripList (s : List Char) : List Char :=
  (((s.dropWhile isPySpace).reverse.dropWhile isPySpace)).reverse

/-- Decimal value continuation for Python's `int()` digit grammar
`digit (["_"] digit)*`: single underscores are allowed between digits. -/
def dpTail (acc : Nat) : List Char → Option Nat
  | [] => some acc
  | c :: rest =>
    if c == '_' then
      match rest with
      | c2 :: rest2 =>
        if c2.isDigit then dpTail (acc * 10 + (c2.toNat - 48)) rest2 else none
      | [] => none
    else if c.isDigit then dpTail (acc * 10 + (c.toNat - 48)) rest else none

/-- Python `int()` digit part: nonempty digits with optional single
underscores between digits. -/
def digitpartVal : List Char → Option Nat
  | [] => none
  | c :: rest => if c.isDigit then dpTail (c.toNat - 48) rest else none

/-- Sign-then-digits part of Python `int()`: an optional single `+`/`-`
followed by the digit grammar. -/
def pyIntCore : List Char → Option Int
  | [] => none
  | c :: rest =>
    if c == '+' then (digitpartVal rest).map (fun n => (n : Int))
    else if c == '-' then (digitpartVal rest).map (fun n => -(n : Int))
    else (digitpartVal (c :: rest)).map (fun n => (n : Int))

/-- Python `int(s)` for a decimal string: strip whitespace, optional sign,
then the digit grammar; `none` models a raised `ValueError`.
(ASCII digits; unicode digits are out of the modelled input range.) -/
def pyInt (s : List Char) : Option Int := pyIntCore (pyStripList s)

/-- Decimal value of a digit string (helper for `pyFloat`). -/
def natVal (s : List Char) : Nat :=
  s.foldl (fun acc c => acc * 10 + (c.toNat - 48)) 0

/-- Core of Python `float()` for plain decimal literals `digits[.digits]`,
`.digits`, `digits.`; exotic forms (exponents, `inf`, `nan`, underscore
separators) are outside the inputs the scripts feed it. -/
def floatCore (r : List Char) : Option Rat :=
  match r.splitOn '.' with
  | [a] => if a ≠ [] && a.all Char.isDigit then some ((natVal a : Int) : Rat) else none
  | [a, b] =>
    if (a ≠ [] || b ≠ []) && a.all Char.isDigit && b.all Char.isDigit then
      some (((natVal a : Int) : Rat) + ((natVal b : Int) : Rat) / ((10 : Rat) ^ b.length))
    else none
  | _ => none

/-- Python `float(s)` for plain decimal strings; `none` models `ValueError`.
Values in range are exact, which is all the summation claims need. -/
def pyFloat (s : List Char) : Option Rat :=
  match pyStripList s with
  | '+' :: rest => floatCore rest
  | '-' :: rest => (floatCore rest).map Neg.neg
  | rest => floatCore rest

/-- Python substring test `pat in s`. -/
def containsSub (pat : List Char) : List Char → Bool
  | [] => pat.isEmpty
  | c :: t => pat.isPrefixOf (c :: t) || containsSub pat t

/-- Python `s.replace(pat, "")` (leftmost, non-overlapping removal),
with fuel for termination; `pat` is nonempty at every call site. -/
def removeAll (pat : List Char) : Nat → List Char → List Char
  | 0, s => s
  | fuel + 1, s =>
    if pat.isPrefixOf s then removeAll pat fuel (s.drop pat.length)
    else
      match s with
      | [] => []
      | c :: t => c :: removeAll pat fuel t

/-- Python `s.replace(pat, "")`. -/
def pyRemove (pat s : List Char) : List Char := removeAll pat (s.length + 1) s

/-- Lines seen when iterating a Python text file, as split on newline.
(The trailing-newline bookkeeping differs only by a final empty line,
which none of the line handlers react to.) -/
def pylines (c : List Char) : List (List Char) := c.splitOn '\n'

/-- Python `s.split()` (split on whitespace runs, dropping empty pieces):
accumulator-based worker. -/
def pySplitWSGo (cur : List Char) : List Char → List (List Char)
  | [] => if cur.isEmpty then [] else [cur.reverse]
  | c :: t =>
    if isPySpace c then
      if cur.isEmpty then pySplitWSGo [] t else cur.reverse :: pySplitWSGo [] t
    else pySplitWSGo (c :: cur) t

/-- Python `s.split()` with no separator argument. -/
def pySplitWS (s : List Char) : List (List Char) := pySplitWSGo [] s

/-! ## Regular-expression engine

A backtracking matcher for the exact constructs used by the scripts'
patterns, with Python `re` semantics: leftmost search, greedy `+`,
numbered capturing groups, `$` matching at the end of the string or just
before a final newline, `.` matching anything except newline, and `\d` /
`[^_]` character classes. -/

/-- Single-character regex atoms used by the scripts' patterns. -/
inductive RAtom where
  | lit (c : Char)
  | anyc
  | digit
  | notUnd
deriving DecidableEq

/-- Whether an atom matches one character (Python semantics: `.` excludes
newline, `\d` is a decimal digit, `[^_]` is any non-underscore). -/
def RAtom.test : RAtom → Char → Bool
  | .lit c, d => d == c
  | .anyc, d => !(d == '\n')
  | .digit, d => d.isDigit
  | .notUnd, d => !(d == '_')

/-- Regex syntax: atoms, greedy `+` over an atom, numbered groups,
concatenation, empty, and `$`. -/
inductive RE where
  | eps
  | atom (a : RAtom)
  | plus (a : RAtom)
  | group (n : Nat) (r : RE)
  | cat (r1 r2 : RE)
  | eos
deriving DecidableEq

/-- Captured groups: group number to captured text (latest binding wins). -/
abbrev Caps := List (Nat × List Char)

/-- Look up a captured group. -/
def lookupCap (caps : Caps) (n : Nat) : Option (List Char) :=
  match caps with
  | [] => none
  | (m, v) :: rest => if m = n then some v else lookupCap rest n

/-- Record a captured group. -/
def setCap (caps : Caps) (n : Nat) (v : List Char) : Caps := (n, v) :: caps

/-- Length of the maximal run of characters matching an atom. -/
def charsMatching (a : RAtom) (s : List Char) : Nat := (s.takeWhile a.test).length

/-- Backtracking helper: try `f i`, `f (i-1)`, ... for `steps` attempts,
returning the first success (greedy order: longer consumption first). -/
def tryDescend (f : Nat → Option α) : Nat → Nat → Option α
  | _, 0 => none
  | i, steps + 1 =>
    match f i with
    | some v => some v
    | none => tryDescend f (i - 1) steps

/-- Continuation-passing backtracking matcher. `matchRE r s caps k`
matches `r` at the start of `s` and feeds the rest of the input and the
updated captures to `k`; alternatives are tried in Python's preference
order (greedy `+`). -/
def matchRE : RE → List Char → Caps → (List Char → Caps → Option α) → Option α
  | .eps, s, caps, k => k s caps
  | .atom _, [], _, _ => none
  | .atom a, c :: s, caps, k => if a.test c then k s caps else none
  | .plus a, s, caps, k =>
    tryDescend (fun j => k (s.drop j) caps) (charsMatching a s) (charsMatching a s)
  | .group n r, s, caps, k =>
    matchRE r s caps (fun s2 caps2 => k s2 (setCap caps2 n (s.take (s.length - s2.length))))
  | .cat r1 r2, s, caps, k => matchRE r1 s caps (fun s2 caps2 => matchRE r2 s2 caps2 k)
  | .eos, s, caps, k => if s = [] ∨ s = ['\n'] then k s caps else none

/-- `re.search`: try a match at each start position, leftmost first;
returns the captures and the input remaining after the match. -/
def reSearchRaw (r : RE) : List Char → Option (Caps × List Char)
  | [] => matchRE r [] [] (fun s2 caps => some (caps, s2))
  | c :: t =>
    match matchRE r (c :: t) [] (fun s2 caps => some (caps, s2)) with
    | some v => some v
    | none => reSearchRaw r t

/-- `re.findall` worker for a one-group pattern: scan left to right,
non-overlapping, collecting group 1 of each match; fuel bounds the scan. -/
def findAllG1 (r : RE) : Nat → List Char → List (List Char)
  | 0, _ => []
  | fuel + 1, s =>
    match reSearchRaw r s with
    | none => []
    | some (caps, rest) =>
      let g := (lookupCap caps 1).getD []
      if rest.length < s.length then g :: findAllG1 r fuel rest
      else g :: findAllG1 r fuel (rest.drop 1)

/-- `re.findall` for a pattern with exactly one capturing group. -/
def reFindallG1 (r : RE) (s : List Char) : List (List Char) :=
  findAllG1 r (s.length + 1) s

/-- A literal string as a regex. -/
def litsRE : List Char → RE
  | [] => .eps
  | c :: cs => .cat (.atom (.lit c)) (litsRE cs)

/-- Right-nested concatenation of a pattern list. -/
def catList : List RE → RE
  | [] => .eps
  | r :: rs => .cat r (catList rs)

/-! ## Embedded script definitions: new_analyze_results.py -/

/-- Record produced by the filename parsers: the three extracted
parameters (`dataset_size`, `threads_or_buffer`, `table_size`). -/
structure FileParams where
  dataset_size : Int
  threads_or_buffer : Int
  table_size : Int
deriving DecidableEq

/-- Measurements returned by a result-file reader; `none` means the key
is absent from the returned dict. -/
structure ResultData where
  execTime : Option Int
  collisions : Option Int
deriving DecidableEq

namespace NewAnalyze

/-- `parse_size` from new_analyze_results.py: uppercase, then a `K`
suffix multiplies by 1000 and an `M` suffix by 1000000 (Python `replace`
removes every occurrence of the letter); `none` models the uncaught
`ValueError` from `int()`. -/
def parse_size (s : List Char) : Option Int :=
  let u := s.map Char.toUpper
  if u.contains 'K' then (pyInt (u.filter (fun c => !(c == 'K')))).map (· * 1000)
  else if u.contains 'M' then (pyInt (u.filter (fun c => !(c == 'M')))).map (· * 1000000)
  else pyInt u

/-- The regex of `parse_filename` in new_analyze_results.py, which reads
`r"_([^_]+)_(\d+)_([^_]+)_[^_]+\\.txt$"` in the source.  Inside the raw
string, `\\` is a regex escape matching one literal backslash, so the
pattern's tail is: one non-underscore run, one literal backslash, one
arbitrary character, then `txt` at end of string. -/
def patFname : RE := catList
  [.atom (.lit '_'), .group 1 (.plus .notUnd),
   .atom (.lit '_'), .group 2 (.plus .digit),
   .atom (.lit '_'), .group 3 (.plus .notUnd),
   .atom (.lit '_'), .plus .notUnd,
   .atom (.lit '\\'), .atom .anyc, litsRE ("txt".toList), .eos]

/-- `parse_filename` from new_analyze_results.py: `re.search` with
`patFname`; on a match, builds the dict (each `parse_size` / `int`
conversion may raise, modelled by `.error`); otherwise returns the empty
dict (`.ok none`). -/
def parse_filename (name : List Char) : Except Unit (Option FileParams) :=
  match reSearchRaw patFname name with
  | none => .ok none
  | some (caps, _) =>
    match parse_size ((lookupCap caps 1).getD []) with
    | none => .error ()
    | some d =>
      match pyInt ((lookupCap caps 2).getD []) with
      | none => .error ()
      | some th =>
        match parse_size ((lookupCap caps 3).getD []) with
        | none => .error ()
        | some tb => .ok (some ⟨d, th, tb⟩)

/-- The group shared by both content patterns of new_analyze_results.py:
in the source the raw strings contain `(\\d+)`, i.e. a literal backslash
followed by one or more letter-`d` characters. -/
def bsGroup : RE := .group 1 (.cat (.atom (.lit '\\')) (.plus (.lit 'd')))

/-- Shape of both content patterns: literal prefix, the `(\\d+)` group,
literal suffix. -/
def markerPat (pre post : List Char) : RE :=
  .cat (litsRE pre) (.cat bsGroup (litsRE post))

/-- `r"ExecutionTime: (\\d+) ms"` from new_analyze_results.py. -/
def patExec : RE := markerPat ("ExecutionTime: ".toList) (" ms".toList)

/-- `r"NumberOfHandledCollision: (\\d+)"` from new_analyze_results.py. -/
def patColl : RE := markerPat ("NumberOfHandledCollision: ".toList) []

/-- Python `sum(int(t) for t in l)`: `none` models a `ValueError` from
any conversion. -/
def sumIntsOpt (l : List (List Char)) : Option Int :=
  (l.mapM pyInt).map (fun vs => vs.foldl (· + ·) 0)

/-- `read_result_file` from new_analyze_results.py over the file's text.
`openOk = false` models an exception from `open`/`read` (caught; the
empty dict accumulated so far is returned).  Otherwise both `findall`s
run, then each nonempty list is summed into its dict key; a conversion
failure raises inside the `try`, so the dict as accumulated to that
point is returned. -/
def read_result_file (openOk : Bool) (content : List Char) : ResultData :=
  if openOk then
    let ts := reFindallG1 patExec content
    let cs := reFindallG1 patColl content
    match ts with
    | [] =>
      match cs with
      | [] => ⟨none, none⟩
      | _ =>
        match sumIntsOpt cs with
        | none => ⟨none, none⟩
        | some w => ⟨none, some w⟩
    | _ =>
      match sumIntsOpt ts with
      | none => ⟨none, none⟩
      | some v =>
        match cs with
        | [] => ⟨some v, none⟩
        | _ =>
          match sumIntsOpt cs with
          | none => ⟨some v, none⟩
          | some w => ⟨some v, some w⟩
  else ⟨none, none⟩

end NewAnalyze

/-! ## Embedded script definitions: OLD PLOT/analyze_results.py -/

namespace OldAnalyze

/-- The regex of `parse_filename` in OLD PLOT/analyze_results.py:
`r"_(\d+)_(\d+)_(\d+)\.txt$"` (here `\.` is an escaped literal dot). -/
def patFname : RE := catList
  [.atom (.lit '_'), .group 1 (.plus .digit),
   .atom (.lit '_'), .group 2 (.plus .digit),
   .atom (.lit '_'), .group 3 (.plus .digit),
   .atom (.lit '.'), litsRE ("txt".toList), .eos]

/-- `parse_filename` from OLD PLOT/analyze_results.py: the three groups
are digit runs, so the `int()` calls cannot fail (the `none` fallthrough
is unreachable); no match yields the empty dict. -/
def parse_filename (name : List Char) : Option FileParams :=
  match reSearchRaw patFname name with
  | none => none
  | some (caps, _) =>
    match pyInt ((lookupCap caps 1).getD []),
          pyInt ((lookupCap caps 2).getD []),
          pyInt ((lookupCap caps 3).getD []) with
    | some a, some b, some c => some ⟨a, b, c⟩
    | _, _, _ => none

/-- One loop iteration of `read_result_file` in OLD PLOT: for a line
containing `"ExecutionTime:"`, `int(line.split(":")[1].strip().replace("ms", ""))`
overwrites the key; likewise for `"NumberOfHandledCollision:"`; other
lines are skipped.  `none` models a raised exception (bad index or bad
int), `some f` the dict update performed. -/
def lineUpdate (line : List Char) : Option (ResultData → ResultData) :=
  if containsSub ("ExecutionTime:".toList) line then
    match (line.splitOn ':')[1]? with
    | none => none
    | some piece =>
      (pyInt (pyRemove ("ms".toList) (pyStripList piece))).map
        (fun v d => { d with execTime := some v })
  else if containsSub ("NumberOfHandledCollision:".toList) line then
    match (line.splitOn ':')[1]? with
    | none => none
    | some piece =>
      (pyInt (pyStripList piece)).map (fun v d => { d with collisions := some v })
  else some id

/-- The line loop of `read_result_file` in OLD PLOT: a raised exception
is caught by the surrounding `except`, which returns the dict
accumulated so far. -/
def readLines : List (List Char) → ResultData → ResultData
  | [], d => d
  | l :: rest, d =>
    match lineUpdate l with
    | none => d
    | some f => readLines rest (f d)

/-- `read_result_file` from OLD PLOT/analyze_results.py; `openOk = false`
models a failing `open` (caught, empty dict returned). -/
def read_result_file (openOk : Bool) (content : List Char) : ResultData :=
  if openOk then readLines (pylines content) ⟨none, none⟩ else ⟨none, none⟩

end OldAnalyze

/-! ## Embedded pipeline: aggregation, cleaning, chart names, main -/

/-- One file of the results directory as the scripts can observe it:
its name, whether opening/reading it succeeds, and its text. -/
structure PyFile where
  name : List Char
  readable : Bool
  content : List Char
deriving DecidableEq

/-- One row of the `all_data` list: the dict merged from the (possibly
empty) parser output, the reader output and the filename.  A `none`
field is a key missing from the row, which pandas turns into `NaN`. -/
structure RawRecord where
  dataset_size : Option Int
  threads_or_buffer : Option Int
  table_size : Option Int
  ExecutionTime_ms : Option Int
  NumberOfHandledCollision : Option Int
  filename : List Char
deriving DecidableEq

/-- A row of the cleaned dataframe, where every required column holds a
numeric value. -/
structure CleanRecord where
  dataset_size : Int
  threads_or_buffer : Int
  table_size : Int
  ExecutionTime_ms : Int
  NumberOfHandledCollision : Int
deriving DecidableEq

/-- Whether a row has a value in every one of the five required columns. -/
def rowComplete (r : RawRecord) : Bool :=
  r.dataset_size.isSome && r.threads_or_buffer.isSome && r.table_size.isSome &&
    r.ExecutionTime_ms.isSome && r.NumberOfHandledCollision.isSome

/-- Whether each of the five required columns exists in the dataframe
built from the rows (a pandas column exists iff some row has the key;
`df[col]` on a missing column raises `KeyError`). -/
def colsPresent (rows : List RawRecord) : Bool :=
  rows.any (fun r => r.dataset_size.isSome) &&
    rows.any (fun r => r.threads_or_buffer.isSome) &&
    rows.any (fun r => r.table_size.isSome) &&
    rows.any (fun r => r.ExecutionTime_ms.isSome) &&
    rows.any (fun r => r.NumberOfHandledCollision.isSome)

/-- The cleaning step shared by both pandas scripts:
`pd.to_numeric(df[col], errors='coerce')` for the five required columns
(raising `KeyError`, modelled `.error`, when a column is absent), then
`dropna` removes every row missing one of them (all stored values are
already ints, so coercion itself never introduces `NaN`), then
`astype(int)` is the identity on the surviving integer values. -/
def cleanDF (rows : List RawRecord) : Except Unit (List RawRecord) :=
  if colsPresent rows then .ok (rows.filter rowComplete) else .error ()

/-- Projection of a fully populated row to a cleaned row. -/
def toClean (r : RawRecord) : Option CleanRecord :=
  match r.dataset_size, r.threads_or_buffer, r.table_size,
        r.ExecutionTime_ms, r.NumberOfHandledCollision with
  | some a, some b, some c, some d, some e => some ⟨a, b, c, d, e⟩
  | _, _, _, _, _ => none

/-- Insert into a ≤-sorted list of ints. -/
def insertSorted (a : Int) : List Int → List Int
  | [] => [a]
  | b :: l => if a ≤ b then a :: b :: l else b :: insertSorted a l

/-- Ascending sort, modelling Python's `sorted` on ints. -/
def sortInts : List Int → List Int := List.foldr insertSorted []

/-- Duplicate removal keeping first occurrences, modelling
`pandas.unique` / `drop_duplicates`. -/
def firstDedup [DecidableEq α] : List α → List α
  | [] => []
  | a :: l => a :: firstDedup (l.filter (fun b => b ≠ a))
termination_by l => l.length
decreasing_by
  simpa using Nat.lt_succ_of_le (List.length_filter_le _ _)

/-- Outcome of a run of either pandas script's `main` (after the
plots-directory setup, which is modelled separately): abort because the
results directory is missing, abort because no data was processed, or a
completed run with the generated chart names. -/
inductive MainOutcome where
  | dirMissing
  | noData
  | completed (charts : List String)
deriving DecidableEq

namespace NewAnalyze

/-- The filename filter of the main loop:
`filename.startswith("Results_HW2_MCC_") and filename.endswith(".txt")`. -/
def nameFilter (n : List Char) : Bool :=
  List.isPrefixOf ("Results_HW2_MCC_".toList) n && List.isSuffixOf (".txt".toList) n

/-- A merged row `{**file_params, **file_content_data, "filename": filename}`
of new_analyze_results.py (the parser matched, so all three parameters
are present). -/
def rowOf (p : FileParams) (d : ResultData) (n : List Char) : RawRecord :=
  { dataset_size := some p.dataset_size
    threads_or_buffer := some p.threads_or_buffer
    table_size := some p.table_size
    ExecutionTime_ms := d.execTime
    NumberOfHandledCollision := d.collisions
    filename := n }

/-- The collection loop of `main` in new_analyze_results.py: for each
file passing the name filter, parse the filename (its conversion errors
propagate) and read the file; the row is kept only when both dicts are
truthy (parser nonempty and at least one measurement present). -/
def collect : List PyFile → Except Unit (List RawRecord)
  | [] => .ok []
  | f :: rest =>
    if nameFilter f.name then
      match parse_filename f.name with
      | .error e => .error e
      | .ok pOpt =>
        let d := read_result_file f.readable f.content
        match collect rest with
        | .error e => .error e
        | .ok rows =>
          match pOpt with
          | some p =>
            if d.execTime.isSome || d.collisions.isSome then .ok (rowOf p d f.name :: rows)
            else .ok rows
          | none => .ok rows
    else collect rest

/-- Chart filename of the per-dataset collision chart. -/
def collName (ds : Int) : String := "collisions_dataset_" ++ toString ds ++ ".png"

/-- Chart filename of the per-(dataset, table-size) execution-time chart. -/
def exeName (ds ts : Int) : String :=
  "exectime_dataset_" ++ toString ds ++ "_tsize_" ++ toString ts ++ ".png"

/-- Chart filename of the per-dataset grouped execution-time chart. -/
def grpName (ds : Int) : String := "exectime_grouped_dataset_" ++ toString ds ++ ".png"

/-- The set of chart files written by the three plotting loops of `main`
in new_analyze_results.py, as a list of names: one collision chart per
sorted unique dataset size, one execution-time chart per distinct
(dataset size, table size) pair, one grouped execution-time chart per
sorted unique dataset size.  The `continue` guards (`subset_df.empty`,
`pivot.empty`) are modelled by the subset-nonemptiness test; on a
cleaned dataframe a nonempty subset pivots to a nonempty table, so no
further guard applies. -/
def chartFiles (l : List CleanRecord) : List String :=
  let dsList := sortInts (firstDedup (l.map (fun r => r.dataset_size)))
  let pairs := firstDedup (l.map (fun r => (r.dataset_size, r.table_size)))
  (dsList.filterMap (fun d =>
      if l.any (fun r => r.dataset_size == d) then some (collName d) else none)) ++
    (pairs.filterMap (fun p =>
      if l.any (fun r => r.dataset_size == p.1 && r.table_size == p.2) then
        some (exeName p.1 p.2)
      else none)) ++
    (dsList.filterMap (fun d =>
      if l.any (fun r => r.dataset_size == d) then some (grpName d) else none))

/-- `main` of new_analyze_results.py from the `results`-directory check
onward: collect rows (filename conversion errors propagate), return
early when nothing was collected, otherwise clean and render, where
rendering is abstracted to the chart names it writes. -/
def main (resultsDirExists : Bool) (files : List PyFile) : Except Unit MainOutcome :=
  if !resultsDirExists then .ok .dirMissing
  else
    match collect files with
    | .error e => .error e
    | .ok rows =>
      if rows.isEmpty then .ok .noData
      else
        match cleanDF rows with
        | .error e => .error e
        | .ok cleaned => .ok (.completed (chartFiles (cleaned.filterMap toClean)))

end NewAnalyze

namespace OldAnalyze

/-- The filename filter of the main loop in OLD PLOT:
`filename.startswith("Results_MCC_") and filename.endswith(".txt")`. -/
def nameFilter (n : List Char) : Bool :=
  List.isPrefixOf ("Results_MCC_".toList) n && List.isSuffixOf (".txt".toList) n

/-- A merged row of OLD PLOT's `main`: the parser output may be the
empty dict, in which case the parameter keys are simply absent. -/
def rowOf (p : Option FileParams) (d : ResultData) (n : List Char) : RawRecord :=
  { dataset_size := p.map (fun q => q.dataset_size)
    threads_or_buffer := p.map (fun q => q.threads_or_buffer)
    table_size := p.map (fun q => q.table_size)
    ExecutionTime_ms := d.execTime
    NumberOfHandledCollision := d.collisions
    filename := n }

/-- The collection loop of `main` in OLD PLOT/analyze_results.py: a row
is kept whenever the reader's dict is truthy, even if the filename did
not parse. -/
def collect : List PyFile → List RawRecord
  | [] => []
  | f :: rest =>
    if nameFilter f.name then
      let p := parse_filename f.name
      let d := read_result_file f.readable f.content
      if d.execTime.isSome || d.collisions.isSome then rowOf p d f.name :: collect rest
      else collect rest
    else collect rest

/-- `main` of OLD PLOT/analyze_results.py from the `results`-directory
check onward: collect rows (nothing in this loop can raise), return
early when nothing was collected, otherwise clean — `df[col]` on a
column absent from every row raises `KeyError`, modelled `.error` — and
render.  The three chart loops of the old script are identical to those
of new_analyze_results.py (same `savefig` names), so rendering is
abstracted to the same chart-name function. -/
def main (resultsDirExists : Bool) (files : List PyFile) : Except Unit MainOutcome :=
  if !resultsDirExists then .ok .dirMissing
  else
    let rows := collect files
    if rows.isEmpty then .ok .noData
    else
      match cleanDF rows with
      | .error e => .error e
      | .ok cleaned => .ok (.completed (NewAnalyze.chartFiles (cleaned.filterMap toClean)))

end OldAnalyze

/-! ## Embedded script definitions: plot.py, and directory setup -/

namespace PlotPy

/-- The plots-directory setup of plot.py, line 12:
`os.makedirs(PLOTS_DIR, exist_ok=True)`.  The directory state is
`none` when absent, otherwise `some` of its file names; `makedirs` with
`exist_ok=True` creates an empty directory only when it is absent and
leaves an existing one untouched. -/
def setupPlotsDir (fs : Option (List String)) : Option (List String) :=
  match fs with
  | some l => some l
  | none => some []

/-- One line step of the result-scanning loop of plot.py (lines 33-45):
strip the line; on an `ExecutionTime:` line add `float(parts[-2])` to
the running time total, on a `NumberOfHandledCollision:` line add
`float(parts[-1])` to the collision total; `IndexError` / `ValueError`
are uncaught (`.error`). -/
def lineStep (acc : Rat × Rat) (raw : List Char) : Except Unit (Rat × Rat) :=
  let line := pyStripList raw
  if List.isPrefixOf ("ExecutionTime:".toList) line then
    let parts := pySplitWS line
    if parts.length < 2 then .error ()
    else
      match parts[parts.length - 2]? with
      | none => .error ()
      | some piece =>
        match pyFloat piece with
        | none => .error ()
        | some v => .ok (acc.1 + v, acc.2)
  else if List.isPrefixOf ("NumberOfHandledCollision:".toList) line then
    let parts := pySplitWS line
    if parts.length < 1 then .error ()
    else
      match parts[parts.length - 1]? with
      | none => .error ()
      | some piece =>
        match pyFloat piece with
        | none => .error ()
        | some v => .ok (acc.1, acc.2 + v)
  else .ok acc

/-- The per-file totals `(total_time, total_coll)` accumulated by
plot.py's scanning loop, starting from `(0.0, 0.0)`. -/
def fileTotals (content : List Char) : Except Unit (Rat × Rat) :=
  (pylines content).foldlM lineStep (0, 0)

end PlotPy

/-- `plt.Normalize(vmin, vmax)` applied to a value: the affine map
sending `vmin` to the low end 0 and `vmax` to the high end 1 of the
colour gradient.  (Modelled over ℚ; at `v = vmin` and `v = vmax` IEEE
arithmetic also yields exactly 0 and 1, so the endpoint claims are
faithful.) -/
def pltNormalize (vmin vmax v : Rat) : Rat := (v - vmin) / (vmax - vmin)

/-- Minimum of a nonempty value series `x :: l` (pandas `.min()`). -/
def seriesMin (x : Rat) (l : List Rat) : Rat := l.foldl min x

/-- Maximum of a nonempty value series `x :: l` (pandas `.max()` /
Python `max`). -/
def seriesMax (x : Rat) (l : List Rat) : Rat := l.foldl max x

/-- The gradient position of a bar of value `v` in the per-(dataset,
table-size) execution-time chart of new_analyze_results.py (lines
139-140): `plt.Normalize(vmin=subset.min(), vmax=subset.max())`. -/
def normNewChart (x : Rat) (l : List Rat) (v : Rat) : Rat :=
  pltNormalize (seriesMin x l) (seriesMax x l) v

/-- The gradient position of a bar of value `v` in plot.py's
`draw_bar_plot` (lines 56-57): `plt.Normalize(vmin=0, vmax=max(values))`. -/
def normPlotChart (x : Rat) (l : List Rat) (v : Rat) : Rat :=
  pltNormalize 0 (seriesMax x l) v

/-- The plots-directory setup shared verbatim by both pandas scripts
(new_analyze_results.py lines 58-60, OLD PLOT lines 53-59):
`shutil.rmtree` when the directory exists, then `os.makedirs`. -/
def pandasSetupPlotsDir (fs : Option (List String)) : Option (List String) :=
  let removed : Option (List String) := if fs.isSome then none else fs
  match removed with
  | some l => some l
  | none => some []

/-- Whether the prelude of a pandas script aborts. -/
inductive PreludeOutcome where
  | aborted
  | proceeded
deriving DecidableEq

/-- The prelude shared by both pandas scripts: clear and recreate the
plots directory, then check `os.path.isdir(results_dir)` and abort with
a message when it is missing.  Returns the outcome and the resulting
plots-directory state. -/
def pandasPrelude (resultsDirExists : Bool) (fs : Option (List String)) :
    PreludeOutcome × Option (List String) :=
  let fs2 := pandasSetupPlotsDir fs
  if resultsDirExists then (.proceeded, fs2) else (.aborted, fs2)

/-! ## Lemmas about the matcher -/

/-- A `takeWhile` run is no longer than the list. -/
theorem lengthTakeWhileLe (p : Char → Bool) (s : List Char) :
    (s.takeWhile p).length ≤ s.length := by
  induction s with
  | nil => simp
  | cons c t ih =>
    by_cases h : p c
    · simp only [List.takeWhile_cons, h, if_true, List.length_cons]
      omega
    · simp [List.takeWhile_cons, h]

/-- A successful `tryDescend` comes from one of the attempted indices. -/
theorem tryDescend_some {α : Type} (f : Nat → Option α) :
    ∀ steps i v, tryDescend f i steps = some v →
      ∃ j, j ≤ i ∧ i < j + steps ∧ f j = some v := by
  intro steps
  induction steps with
  | zero => intro i v h; simp [tryDescend] at h
  | succ n ih =>
    intro i v h
    rw [tryDescend] at h
    cases hf : f i with
    | some w =>
      rw [hf] at h
      exact ⟨i, le_refl i, by omega, by simpa [hf] using h⟩
    | none =>
      rw [hf] at h
      obtain ⟨j, hj1, hj2, hj3⟩ := ih (i - 1) v h
      exact ⟨j, by omega, by omega, hj3⟩

/-- A successful match of a leading atom consumes exactly its character. -/
theorem matchRE_atom_cat {α : Type} (a : RAtom) (r : RE) (s : List Char)
    (caps : Caps) (k : List Char → Caps → Option α) (v : α)
    (h : matchRE (.cat (.atom a) r) s caps k = some v) :
    ∃ c t, s = c :: t ∧ a.test c = true ∧ matchRE r t caps k = some v := by
  cases s with
  | nil => simp [matchRE] at h
  | cons c t =>
    rw [matchRE] at h
    by_cases hc : a.test c
    · exact ⟨c, t, rfl, hc, by simpa [matchRE, hc] using h⟩
    · simp [matchRE, hc] at h

/-- A successful match of a literal string consumes exactly that string
and leaves the captures untouched. -/
theorem matchRE_lits {α : Type} :
    ∀ (w s : List Char) (caps : Caps) (k : List Char → Caps → Option α) (v : α),
      matchRE (litsRE w) s caps k = some v → ∃ t, s = w ++ t ∧ k t caps = some v := by
  intro w
  induction w with
  | nil => intro s caps k v h; exact ⟨s, rfl, by simpa [litsRE, matchRE] using h⟩
  | cons c w ih =>
    intro s caps k v h
    rw [litsRE] at h
    obtain ⟨c0, t, hs, htest, hrest⟩ := matchRE_atom_cat _ _ _ _ _ _ h
    obtain ⟨t2, ht2, hk⟩ := ih t caps k v hrest
    have hc : c0 = c := by simpa [RAtom.test] using htest
    exact ⟨t2, by simp [hs, ht2, hc], hk⟩

/-- A successful greedy `+` consumes between one character and the whole
run, leaving captures untouched. -/
theorem matchRE_plus_some {α : Type} (a : RAtom) (s : List Char) (caps : Caps)
    (k : List Char → Caps → Option α) (v : α)
    (h : matchRE (.plus a) s caps k = some v) :
    ∃ j, 1 ≤ j ∧ j ≤ s.length ∧ k (s.drop j) caps = some v := by
  rw [matchRE] at h
  obtain ⟨j, hj1, hj2, hj3⟩ := tryDescend_some _ _ _ _ h
  have hle : charsMatching a s ≤ s.length := lengthTakeWhileLe _ _
  exact ⟨j, by omega, by omega, hj3⟩

/-- Any successful match of a `markerPat` pattern hands its continuation
a group-1 capture that starts with a literal backslash. -/
theorem matchRE_markerPat {α : Type} (pre post s : List Char) (caps : Caps)
    (k : List Char → Caps → Option α) (v : α)
    (h : matchRE (NewAnalyze.markerPat pre post) s caps k = some v) :
    ∃ w t, k t (setCap caps 1 ('\\' :: w)) = some v := by
  rw [NewAnalyze.markerPat, matchRE] at h
  obtain ⟨t1, hs1, h1⟩ := matchRE_lits pre s caps _ v h
  rw [matchRE] at h1
  rw [NewAnalyze.bsGroup, matchRE] at h1
  obtain ⟨c0, t2, ht1, htest, h2⟩ := matchRE_atom_cat _ _ _ _ _ _ h1
  have hc0 : c0 = '\\' := by simpa [RAtom.test] using htest
  obtain ⟨j, hj1, hj2, h3⟩ := matchRE_plus_some _ _ _ _ _ h2
  have hlen : (t2.drop j).length = t2.length - j := by simp
  have htake : t1.take (t1.length - (t2.drop j).length) = '\\' :: t2.take j := by
    subst ht1 hc0
    have : ('\\' :: t2).length - (t2.drop j).length = j + 1 := by
      simp only [List.length_cons, hlen]; omega
    rw [this, List.take_succ_cons]
  rw [htake] at h3
  obtain ⟨t3, ht3, hk⟩ := matchRE_lits post _ _ _ v h3
  exact ⟨t2.take j, t3, hk⟩

/-- A successful search for a `markerPat` pattern records a group-1
capture starting with a literal backslash. -/
theorem reSearchRaw_markerPat (pre post : List Char) :
    ∀ (s : List Char) (caps : Caps) (rest : List Char),
      reSearchRaw (NewAnalyze.markerPat pre post) s = some (caps, rest) →
        ∃ w, lookupCap caps 1 = some ('\\' :: w) := by
  intro s
  induction s with
  | nil =>
    intro caps rest h
    rw [reSearchRaw] at h
    obtain ⟨w, t, hk⟩ := matchRE_markerPat pre post _ _ _ _ h
    obtain ⟨h1, h2⟩ := Prod.mk.injEq .. ▸ Option.some.injEq .. ▸ hk
    exact ⟨w, by simp [← h1, setCap, lookupCap]⟩
  | cons c t ih =>
    intro caps rest h
    rw [reSearchRaw] at h
    cases hm : matchRE (NewAnalyze.markerPat pre post) (c :: t) []
        (fun s2 caps => some (caps, s2)) with
    | some v =>
      rw [hm] at h
      obtain ⟨w, t3, hk⟩ := matchRE_markerPat pre post _ _ _ _ hm
      have hv : v = (caps, rest) := by simpa using h
      subst hv
      obtain ⟨h1, h2⟩ := Prod.mk.injEq .. ▸ Option.some.injEq .. ▸ hk
      exact ⟨w, by simp [← h1, setCap, lookupCap]⟩
    | none =>
      rw [hm] at h
      exact ih caps rest h

/-- Every string collected by `findall` on a `markerPat` pattern starts
with a literal backslash. -/
theorem mem_findAllG1_markerPat (pre post : List Char) :
    ∀ (fuel : Nat) (s g : List Char),
      g ∈ findAllG1 (NewAnalyze.markerPat pre post) fuel s → ∃ w, g = '\\' :: w := by
  intro fuel
  induction fuel with
  | zero => intro s g h; simp [findAllG1] at h
  | succ n ih =>
    intro s g h
    rw [findAllG1] at h
    cases hm : reSearchRaw (NewAnalyze.markerPat pre post) s with
    | none => rw [hm] at h; simp at h
    | some p =>
      obtain ⟨caps, rest⟩ := p
      rw [hm] at h
      have h2 : g ∈ (if rest.length < s.length
          then ((lookupCap caps 1).getD []) ::
            findAllG1 (NewAnalyze.markerPat pre post) n rest
          else ((lookupCap caps 1).getD []) ::
            findAllG1 (NewAnalyze.markerPat pre post) n (rest.drop 1)) := h
      obtain ⟨w, hw⟩ := reSearchRaw_markerPat pre post s caps rest hm
      by_cases hlt : rest.length < s.length
      · rw [if_pos hlt] at h2
        rcases List.mem_cons.mp h2 with hg | hg
        · exact ⟨w, by simp [hg, hw]⟩
        · exact ih rest g hg
      · rw [if_neg hlt] at h2
        rcases List.mem_cons.mp h2 with hg | hg
        · exact ⟨w, by simp [hg, hw]⟩
        · exact ih (rest.drop 1) g hg

/-! ## Lemmas about the content readers -/

/-- Stripping keeps a non-whitespace head in place. -/
theorem dropWhileAppendLast (p : Char → Bool) (c : Char) (hc : p c = false) :
    ∀ xs : List Char, ∃ ys, List.dropWhile p (xs ++ [c]) = ys ++ [c] := by
  intro xs
  induction xs with
  | nil => exact ⟨[], by simp [List.dropWhile, hc]⟩
  | cons x t ih =>
    by_cases hx : p x
    · obtain ⟨ys, hys⟩ := ih
      exact ⟨ys, by simp [List.dropWhile_cons, hx, hys]⟩
    · exact ⟨x :: t, by simp [List.dropWhile_cons, hx]⟩

/-- `str.strip()` keeps a non-whitespace first character first. -/
theorem pyStripList_cons (c : Char) (hc : isPySpace c = false) (w : List Char) :
    ∃ u, pyStripList (c :: w) = c :: u := by
  rw [pyStripList, List.dropWhile_cons, hc]
  simp only [Bool.false_eq_true, if_false, List.reverse_cons]
  obtain ⟨ys, hys⟩ := dropWhileAppendLast isPySpace c hc w.reverse
  exact ⟨ys.reverse, by rw [hys]; simp⟩

/-- Python `int()` rejects any string whose first non-stripped character
is a backslash. -/
theorem pyInt_bslash (w : List Char) : pyInt ('\\' :: w) = none := by
  obtain ⟨u, hu⟩ := pyStripList_cons '\\' (by decide) w
  rw [pyInt, hu, pyIntCore]
  simp [digitpartVal]

/-- `sum(int(t) for t in l)` raises when the first element is rejected. -/
theorem sumIntsOpt_head_bslash (w : List Char) (l : List (List Char)) :
    NewAnalyze.sumIntsOpt (('\\' :: w) :: l) = none := by
  simp [NewAnalyze.sumIntsOpt, List.mapM, List.mapM.loop, pyInt_bslash]

/-- The reader of new_analyze_results.py returns the empty dict on every
input: its patterns hand back only backslash-prefixed captures (the
`(\\d+)` raw strings), and `int()` rejects each of them before any key
is stored. -/
theorem read_result_file_new_empty (ok : Bool) (c : List Char) :
    NewAnalyze.read_result_file ok c = ⟨none, none⟩ := by
  cases ok with
  | false => rfl
  | true =>
    rw [NewAnalyze.read_result_file]
    simp only [if_true]
    cases hts : reFindallG1 NewAnalyze.patExec c with
    | nil =>
      cases hcs : reFindallG1 NewAnalyze.patColl c with
      | nil => rfl
      | cons g l =>
        obtain ⟨w, hw⟩ := mem_findAllG1_markerPat _ _ _ _ _
          (hcs ▸ List.mem_cons_self g l : g ∈ reFindallG1 NewAnalyze.patColl c)
        subst hw
        simp [sumIntsOpt_head_bslash]
    | cons g l =>
      obtain ⟨w, hw⟩ := mem_findAllG1_markerPat _ _ _ _ _
        (hts ▸ List.mem_cons_self g l : g ∈ reFindallG1 NewAnalyze.patExec c)
      subst hw
      simp [sumIntsOpt_head_bslash]

/-! ## Lemmas about the pipelines -/

/-- When no processed filename raises a conversion error, the collection
loop of new_analyze_results.py collects nothing: the reader's dict is
always empty, so no file passes the truthiness guard. -/
theorem collect_new_nil (files : List PyFile)
    (h : ∀ f ∈ files, NewAnalyze.nameFilter f.name = true →
      NewAnalyze.parse_filename f.name ≠ .error ()) :
    NewAnalyze.collect files = .ok [] := by
  induction files with
  | nil => rfl
  | cons f rest ih =>
    have hrest : NewAnalyze.collect rest = .ok [] :=
      ih (fun g hg => h g (List.mem_cons_of_mem f hg))
    rw [NewAnalyze.collect]
    by_cases hf : NewAnalyze.nameFilter f.name
    · rw [if_pos hf]
      cases hp : NewAnalyze.parse_filename f.name with
      | error e => exact absurd (by cases e; exact hp) (h f (List.mem_cons_self f rest) hf)
      | ok pOpt =>
        cases pOpt with
        | none => simp [hrest]
        | some p => simp [hrest, read_result_file_new_empty]
    · rw [if_neg hf]
      exact hrest

/-- Every record collected by OLD PLOT's loop with a present
`dataset_size` came from a filename its parser matched. -/
theorem mem_collect_old (files : List PyFile) (r : RawRecord)
    (hr : r ∈ OldAnalyze.collect files)
    (hds : r.dataset_size.isSome = true) :
    (OldAnalyze.parse_filename r.filename).isSome = true := by
  induction files with
  | nil => simp [OldAnalyze.collect] at hr
  | cons f rest ih =>
    rw [OldAnalyze.collect] at hr
    by_cases hf : OldAnalyze.nameFilter f.name
    · rw [if_pos hf] at hr
      by_cases hd : ((OldAnalyze.read_result_file f.readable f.content).execTime.isSome ||
          (OldAnalyze.read_result_file f.readable f.content).collisions.isSome : Bool)
      · rw [if_pos hd] at hr
        rcases List.mem_cons.mp hr with hr0 | hr0
        · subst hr0
          cases hpf : OldAnalyze.parse_filename f.name with
          | some q => simp [OldAnalyze.rowOf, hpf]
          | none => simp [OldAnalyze.rowOf, hpf] at hds
        · exact ih hr0
      · rw [if_neg hd] at hr
        exact ih hr
    · rw [if_neg hf] at hr
      exact ih hr

/-- Every record collected by new_analyze_results.py's loop came from a
filename its parser matched (with some parameters). -/
theorem mem_collect_new (files : List PyFile) :
    ∀ (rows : List RawRecord), NewAnalyze.collect files = .ok rows →
      ∀ r ∈ rows, ∃ p, NewAnalyze.parse_filename r.filename = .ok (some p) := by
  induction files with
  | nil =>
    intro rows hc r hr
    rw [NewAnalyze.collect] at hc
    cases hc
    simp at hr
  | cons f rest ih =>
    intro rows hc r hr
    rw [NewAnalyze.collect] at hc
    by_cases hf : NewAnalyze.nameFilter f.name
    · rw [if_pos hf] at hc
      cases hp : NewAnalyze.parse_filename f.name with
      | error e => rw [hp] at hc; cases hc
      | ok pOpt =>
        rw [hp] at hc
        cases hrest : NewAnalyze.collect rest with
        | error e => rw [hrest] at hc; cases hc
        | ok rows2 =>
          rw [hrest] at hc
          cases pOpt with
          | none =>
            have hc2 : (Except.ok rows2 : Except Unit (List RawRecord)) = .ok rows := hc
            cases hc2
            exact ih _ hrest r hr
          | some p =>
            have hc2 : (if ((NewAnalyze.read_result_file f.readable f.content).execTime.isSome ||
                  (NewAnalyze.read_result_file f.readable f.content).collisions.isSome) = true
                then (Except.ok
                  (NewAnalyze.rowOf p (NewAnalyze.read_result_file f.readable f.content) f.name
                    :: rows2) : Except Unit (List RawRecord))
                else .ok rows2) = .ok rows := hc
            by_cases hd : ((NewAnalyze.read_result_file f.readable f.content).execTime.isSome ||
                (NewAnalyze.read_result_file f.readable f.content).collisions.isSome) = true
            · rw [if_pos hd] at hc2
              cases hc2
              rcases List.mem_cons.mp hr with hr0 | hr0
              · subst hr0
                exact ⟨p, by simpa [NewAnalyze.rowOf] using hp⟩
              · exact ih _ hrest r hr0
            · rw [if_neg hd] at hc2
              cases hc2
              exact ih _ hrest r hr
    · rw [if_neg hf] at hc
      exact ih rows hc r hr

namespace OldAnalyze

/-- Whether a line is processed without raising. -/
def lineOk (l : List Char) : Bool := (lineUpdate l).isSome

/-- The dict update a line performs when it does not raise. -/
def lineApply (d : ResultData) (l : List Char) : ResultData :=
  ((lineUpdate l).getD id) d

end OldAnalyze

/-- OLD PLOT's line loop processes exactly the lines before the first
raising line and returns the dict accumulated from them. -/
theorem readLines_eq_takeWhile :
    ∀ (ls : List (List Char)) (d : ResultData),
      OldAnalyze.readLines ls d =
        (ls.takeWhile OldAnalyze.lineOk).foldl OldAnalyze.lineApply d := by
  intro ls
  induction ls with
  | nil => intro d; rfl
  | cons l rest ih =>
    intro d
    rw [OldAnalyze.readLines]
    cases hu : OldAnalyze.lineUpdate l with
    | none =>
      have hok : OldAnalyze.lineOk l = false := by simp [OldAnalyze.lineOk, hu]
      simp [List.takeWhile_cons, hok]
    | some f =>
      have hok : OldAnalyze.lineOk l = true := by simp [OldAnalyze.lineOk, hu]
      have happ : OldAnalyze.lineApply d l = f d := by simp [OldAnalyze.lineApply, hu]
      simp [List.takeWhile_cons, hok, ih, happ]

/-- Membership in an insertion step of the sort. -/
theorem mem_insertSorted (a x : Int) :
    ∀ l : List Int, x ∈ insertSorted a l ↔ x = a ∨ x ∈ l := by
  intro l
  induction l with
  | nil => simp [insertSorted]
  | cons b t ih =>
    rw [insertSorted]
    by_cases hab : a ≤ b
    · simp [hab]
    · rw [if_neg hab]
      simp only [List.mem_cons, ih]
      tauto

/-- `sorted` keeps exactly the elements of its input. -/
theorem mem_sortInts (x : Int) : ∀ l : List Int, x ∈ sortInts l ↔ x ∈ l := by
  intro l
  induction l with
  | nil => simp [sortInts]
  | cons a t ih =>
    have : sortInts (a :: t) = insertSorted a (sortInts t) := rfl
    rw [this, mem_insertSorted]
    simp [ih]

/-- Duplicate removal keeps exactly the elements of its input. -/
theorem mem_firstDedup {α : Type} [DecidableEq α] :
    ∀ (l : List α) (x : α), x ∈ firstDedup l ↔ x ∈ l := by
  intro l
  induction l using firstDedup.induct with
  | case1 => simp [firstDedup]
  | case2 a t ih =>
    intro x
    rw [firstDedup]
    simp only [List.mem_cons, ih, List.mem_filter, decide_eq_true_eq]
    constructor
    · rintro (rfl | ⟨hx, _⟩)
      · exact Or.inl rfl
      · exact Or.inr hx
    · rintro (rfl | hx)
      · exact Or.inl rfl
      · by_cases hxa : x = a
        · exact Or.inl hxa
        · exact Or.inr ⟨hx, hxa⟩

/-- The chart names generated by new_analyze_results.py are exactly the
names derived from the grouping-key values occurring in the cleaned
records. -/
theorem mem_chartFiles (l : List CleanRecord) (x : String) :
    x ∈ NewAnalyze.chartFiles l ↔
      (∃ r ∈ l, x = NewAnalyze.collName r.dataset_size) ∨
      (∃ r ∈ l, x = NewAnalyze.exeName r.dataset_size r.table_size) ∨
      (∃ r ∈ l, x = NewAnalyze.grpName r.dataset_size) := by
  rw [NewAnalyze.chartFiles]
  simp only [List.mem_append, List.mem_filterMap, mem_sortInts, mem_firstDedup,
    List.mem_map]
  constructor
  · rintro ((⟨d, ⟨r, hr, hd⟩, hf⟩ | ⟨p, ⟨r, hr, hp⟩, hf⟩) | ⟨d, ⟨r, hr, hd⟩, hf⟩)
    · left
      refine ⟨r, hr, ?_⟩
      rcases ite_eq_iff.mp hf with ⟨_, he⟩ | ⟨_, he⟩
      · cases he; rw [hd]
      · cases he
    · right; left
      refine ⟨r, hr, ?_⟩
      rcases ite_eq_iff.mp hf with ⟨_, he⟩ | ⟨_, he⟩
      · cases he; rw [← hp]
      · cases he
    · right; right
      refine ⟨r, hr, ?_⟩
      rcases ite_eq_iff.mp hf with ⟨_, he⟩ | ⟨_, he⟩
      · cases he; rw [hd]
      · cases he
  · rintro (⟨r, hr, rfl⟩ | ⟨r, hr, rfl⟩ | ⟨r, hr, rfl⟩)
    · left; left
      refine ⟨r.dataset_size, ⟨r, hr, rfl⟩, ?_⟩
      rw [if_pos ?_]
      exact List.any_eq_true.mpr ⟨r, hr, by simp⟩
    · left; right
      refine ⟨(r.dataset_size, r.table_size), ⟨r, hr, rfl⟩, ?_⟩
      rw [if_pos ?_]
      exact List.any_eq_true.mpr ⟨r, hr, by simp⟩
    · right
      refine ⟨r.dataset_size, ⟨r, hr, rfl⟩, ?_⟩
      rw [if_pos ?_]
      exact List.any_eq_true.mpr ⟨r, hr, by simp⟩

/-- Decidable equality for `Except`, used to evaluate the embedded
functions on concrete inputs. -/
instance {ε α : Type} [DecidableEq ε] [DecidableEq α] : DecidableEq (Except ε α) := fun a b =>
  match a, b with
  | .error e, .error f =>
    if h : e = f then .isTrue (congrArg Except.error h)
    else .isFalse (fun hh => h (Except.error.inj hh))
  | .ok x, .ok y =>
    if h : x = y then .isTrue (congrArg Except.ok h)
    else .isFalse (fun hh => h (Except.ok.inj hh))
  | .error _, .ok _ => .isFalse (fun hh => Except.noConfusion hh)
  | .ok _, .error _ => .isFalse (fun hh => Except.noConfusion hh)

/-! ## Concrete inputs used by the claim theorems -/

/-- The example filename given in the docstring of `parse_filename` in
new_analyze_results.py. -/
def exampleName : List Char :=
  ("Results_HW2_MCC_030402_401106039_150K_8_150K_insert_insert_delete_insert.txt").toList

/-- A filename (legal on a POSIX file system) containing a literal
backslash, which the broken pattern of new_analyze_results.py matches
with size token `QK`. -/
def crashName : List Char := ("Results_HW2_MCC_x_QK_8_150K_z\\.txt").toList

/-- File content with three execution-time markers of 100, 200 and 50 ms. -/
def contentMulti : List Char :=
  ("ExecutionTime: 100 ms\nExecutionTime: 200 ms\nExecutionTime: 50 ms").toList

/-- File content whose second line raises during OLD PLOT's parse. -/
def contentPartial : List Char :=
  ("ExecutionTime: 100 ms\nNumberOfHandledCollision: xyz").toList

/-- A well-formed input file for the old pipeline. -/
def demoOldFiles : List PyFile :=
  [⟨("Results_MCC_150_1_120.txt").toList, true,
    ("ExecutionTime: 5 ms\nNumberOfHandledCollision: 3").toList⟩]

/-- The record the old pipeline collects from `demoOldFiles`. -/
def demoOldRow : RawRecord :=
  ⟨some 150, some 1, some 120, some 5, some 3, ("Results_MCC_150_1_120.txt").toList⟩

/-- A benign input list for the new pipeline: a conventional filename
(no backslash), readable content with one marker. -/
def demoNewFiles : List PyFile :=
  [⟨("Results_HW2_MCC_030402_401106039_150K_8_150K_insert.txt").toList, true,
    ("ExecutionTime: 100 ms").toList⟩]

/-- An input for the old pipeline whose filename does not parse but
whose content carries a marker: the collected row has no parameter
keys, so the dataframe lacks the `dataset_size` column entirely. -/
def demoBadOldFiles : List PyFile :=
  [⟨("Results_MCC_abc.txt").toList, true, ("ExecutionTime: 5 ms").toList⟩]

/-- A row set with one complete and one incomplete row. -/
def demoRows : List RawRecord :=
  [demoOldRow, ⟨none, none, some 3, some 4, some 5, []⟩]

/-- Two cleaned records sharing a dataset size. -/
def demoCleanA : CleanRecord := ⟨150000, 8, 150000, 300, 12⟩

/-- A second cleaned record. -/
def demoCleanB : CleanRecord := ⟨150000, 16, 90000, 150, 5⟩

/-- A second complete raw record for the permutation witness. -/
def demoRawB : RawRecord := ⟨some 150, some 2, some 90, some 7, some 4, []⟩

/-! ## Claim theorems -/

/-- C1: the claim states that for every filename following the
documented convention the parser returns the three encoded integers with
K/M scaling.  The code contradicts its own docstring: on the docstring's
own example filename, `parse_filename` returns the empty dict, because
the raw string `"...\\.txt$"` makes the regex demand a literal backslash
before the final `.txt`.  The `parse_size` scaling itself is as claimed
(`150K` to 150000, `2M` to 2000000), locating the bug in the regex. -/
theorem c1_parse_filename_convention :
    NewAnalyze.parse_filename exampleName = .ok none ∧
    NewAnalyze.parse_size (("150K").toList) = some 150000 ∧
    NewAnalyze.parse_size (("2M").toList) = some 2000000 :=
  ⟨rfl, by decide, by decide⟩

/-- C2: the claim states that the readers sum multiple marker
occurrences (100, 200, 50 ms giving 350).  On exactly such content, the
reader of new_analyze_results.py returns no measurement at all (its
pattern `"ExecutionTime: (\\d+) ms"` matches a literal backslash
followed by letter `d`s, never decimal digits), the OLD PLOT reader
overwrites instead of summing and returns 50, and only plot.py's
scanning loop produces the claimed sum 350. -/
theorem c2_reader_sum_markers :
    NewAnalyze.read_result_file true contentMulti = ⟨none, none⟩ ∧
    OldAnalyze.read_result_file true contentMulti = ⟨some 50, none⟩ ∧
    PlotPy.fileTotals contentMulti = .ok (350, 0) :=
  ⟨by decide, by decide, by
    have h : PlotPy.fileTotals contentMulti =
        .ok ((0 : Rat) + ((100 : Int) : Rat) + ((200 : Int) : Rat) + ((50 : Int) : Rat),
          (0 : Rat)) := rfl
    rw [h]
    norm_num⟩

/-- C3 counterexample: with the results directory present, both pandas
scripts can crash.  A single readable file named
`Results_HW2_MCC_x_QK_8_150K_z\.txt` (a legal POSIX filename) makes
new_analyze_results.py raise an uncaught `ValueError`: the filename
matches the backslash-demanding pattern with size token `QK`, and
`parse_size` then calls `int("Q")` outside any `try`.  A single file
`Results_MCC_abc.txt` containing `ExecutionTime: 5 ms` makes OLD
PLOT/analyze_results.py raise an uncaught `KeyError`: the row is
retained on the reader's output alone, no row has a `dataset_size` key,
and `pd.to_numeric(df["dataset_size"], ...)` touches a missing column. -/
theorem c3_crash_counterexample :
    NewAnalyze.main true [⟨crashName, true, []⟩] = .error () ∧
    OldAnalyze.main true demoBadOldFiles = .error () :=
  ⟨rfl, rfl⟩

/-- C3 as amended: in neither pandas script is the absence of the input
directory the only fatal condition.  For new_analyze_results.py, if the
results directory exists and no processed filename both matches the
filename pattern and carries a size token rejected by integer
conversion, the run completes without an uncaught exception — always
via the "No data processed" early return, because the content patterns
never match decimal digits; a filename meeting that condition raises an
uncaught `ValueError`.  For OLD PLOT/analyze_results.py, whenever rows
are collected but some required column is absent from every collected
row, the run aborts with an uncaught `KeyError` from the cleaning step;
when nothing is collected it completes via the "No data processed"
early return. -/
theorem c3_run_completes_amended :
    (∀ files : List PyFile,
      (∀ f ∈ files, NewAnalyze.nameFilter f.name = true →
        NewAnalyze.parse_filename f.name ≠ .error ()) →
      NewAnalyze.main true files = .ok .noData) ∧
    (∀ files : List PyFile, (OldAnalyze.collect files).isEmpty = false →
      colsPresent (OldAnalyze.collect files) = false →
      OldAnalyze.main true files = .error ()) ∧
    (∀ files : List PyFile, OldAnalyze.collect files = [] →
      OldAnalyze.main true files = .ok .noData) := by
  refine ⟨?_, ?_, ?_⟩
  · intro files h
    have hc := collect_new_nil files h
    rw [NewAnalyze.main, hc]
    exact rfl
  · intro files h1 h2
    have hnp : ¬ colsPresent (OldAnalyze.collect files) = true := by simp [h2]
    have hclean : cleanDF (OldAnalyze.collect files) = .error () := by
      rw [cleanDF, if_neg hnp]
    rw [OldAnalyze.main]
    simp [h1, hclean]
  · intro files h
    rw [OldAnalyze.main, h]
    exact rfl

/-- C3 witness: a conventional filename with marker content satisfies
the new script's hypothesis and that run returns "No data processed";
the parameterless old-pipeline input satisfies the KeyError hypotheses
and that run aborts; an empty directory satisfies the third part. -/
theorem c3_run_completes_amended_witness :
    ((∀ f ∈ demoNewFiles, NewAnalyze.nameFilter f.name = true →
        NewAnalyze.parse_filename f.name ≠ .error ()) ∧
      NewAnalyze.main true demoNewFiles = .ok .noData) ∧
    ((OldAnalyze.collect demoBadOldFiles).isEmpty = false ∧
      colsPresent (OldAnalyze.collect demoBadOldFiles) = false ∧
      OldAnalyze.main true demoBadOldFiles = .error ()) ∧
    (OldAnalyze.collect ([] : List PyFile) = [] ∧
      OldAnalyze.main true [] = .ok .noData) :=
  ⟨⟨by decide, c3_run_completes_amended.1 demoNewFiles (by decide)⟩,
   ⟨by decide, by decide,
     c3_run_completes_amended.2.1 demoBadOldFiles (by decide) (by decide)⟩,
   ⟨rfl, c3_run_completes_amended.2.2 [] rfl⟩⟩

/-- C4: a filename the pattern does not match yields the empty dict, and
no record of a cleaned dataset comes from an unmatched filename: in the
old pipeline every cleaned record has all parameter fields, which are
populated only when its filename parsed; in the new pipeline the
collection guard already demands a nonempty parser output. -/
theorem c4_nonmatching_excluded :
    (∀ n : List Char, reSearchRaw NewAnalyze.patFname n = none →
      NewAnalyze.parse_filename n = .ok none) ∧
    (∀ (files : List PyFile) (l : List RawRecord),
      cleanDF (OldAnalyze.collect files) = .ok l →
      ∀ r ∈ l, (OldAnalyze.parse_filename r.filename).isSome = true) ∧
    (∀ (files : List PyFile) (rows l : List RawRecord),
      NewAnalyze.collect files = .ok rows → cleanDF rows = .ok l →
      ∀ r ∈ l, ∃ p, NewAnalyze.parse_filename r.filename = .ok (some p)) := by
  refine ⟨?_, ?_, ?_⟩
  · intro n h
    rw [NewAnalyze.parse_filename, h]
  · intro files l hcl r hr
    rw [cleanDF] at hcl
    by_cases hp : colsPresent (OldAnalyze.collect files) = true
    · rw [if_pos hp] at hcl
      cases hcl
      have hmem := List.mem_filter.mp hr
      have hds : r.dataset_size.isSome = true := by
        have := hmem.2
        rw [rowComplete] at this
        simp only [Bool.and_eq_true] at this
        exact this.1.1.1.1
      exact mem_collect_old files r hmem.1 hds
    · rw [if_neg hp] at hcl
      cases hcl
  · intro files rows l hco hcl r hr
    rw [cleanDF] at hcl
    by_cases hp : colsPresent rows = true
    · rw [if_pos hp] at hcl
      cases hcl
      exact mem_collect_new files rows hco r (List.mem_filter.mp hr).1
    · rw [if_neg hp] at hcl
      cases hcl

/-- C4 witness: a matching old-pipeline file survives cleaning and its
filename parses. -/
theorem c4_nonmatching_excluded_witness :
    cleanDF (OldAnalyze.collect demoOldFiles) = .ok [demoOldRow] ∧
    (OldAnalyze.parse_filename demoOldRow.filename).isSome = true :=
  ⟨by decide,
   c4_nonmatching_excluded.2.1 demoOldFiles [demoOldRow] (by decide) demoOldRow (by decide)⟩

/-- C5 counterexample: a file whose second line raises during parsing
makes the OLD PLOT reader return the partially accumulated dict
`{ExecutionTime_ms: 100}`, not the same result as a file with no data. -/
theorem c5_partial_data_counterexample :
    OldAnalyze.read_result_file true contentPartial = ⟨some 100, none⟩ ∧
    (⟨some 100, none⟩ : ResultData) ≠ ⟨none, none⟩ :=
  ⟨by decide, by decide⟩

/-- C5 as amended: the OLD PLOT reader never propagates an exception; a
failing `open` yields the empty dict, and a parse failure partway yields
exactly the measurements accumulated from the lines before the first
failing line (possibly partial data, not necessarily the no-data
result), after which processing of the remaining files continues. -/
theorem c5_reader_exception_amended :
    (∀ c : List Char, OldAnalyze.read_result_file false c = ⟨none, none⟩) ∧
    (∀ c : List Char, OldAnalyze.read_result_file true c =
      ((pylines c).takeWhile OldAnalyze.lineOk).foldl OldAnalyze.lineApply ⟨none, none⟩) :=
  ⟨fun _ => rfl, fun c => readLines_eq_takeWhile (pylines c) ⟨none, none⟩⟩

/-- C6 counterexample: plot.py's setup (`os.makedirs(..., exist_ok=True)`
with no removal) leaves a previously generated image in place, so it is
not true that every run deletes the output directory's previous
contents. -/
theorem c6_plotpy_survival_counterexample :
    PlotPy.setupPlotsDir (some ["old.png"]) = some ["old.png"] ∧
    PlotPy.setupPlotsDir (some ["old.png"]) ≠ some [] :=
  ⟨rfl, by decide⟩

/-- C6 as amended: the two pandas scripts do delete and recreate the
plots directory at the start of every run (the resulting directory is
empty whatever its previous state); plot.py merely creates the
directory if absent and lets previous contents survive. -/
theorem c6_pandas_dir_cleared (fs : Option (List String)) :
    pandasSetupPlotsDir fs = some [] := by
  cases fs <;> rfl

/-- C7: whenever the cleaning step succeeds, every surviving record has
a value in each of the five required columns, and cleaning never adds
rows. -/
theorem c7_clean_invariant (rows l : List RawRecord) (h : cleanDF rows = .ok l) :
    (∀ r ∈ l, rowComplete r = true) ∧ l.length ≤ rows.length := by
  rw [cleanDF] at h
  by_cases hp : colsPresent rows = true
  · rw [if_pos hp] at h
    cases h
    exact ⟨fun r hr => (List.mem_filter.mp hr).2, List.length_filter_le _ _⟩
  · rw [if_neg hp] at h
    cases h

/-- C7 witness: cleaning a two-row set with one incomplete row keeps the
complete row and shrinks the row count. -/
theorem c7_clean_invariant_witness :
    rowComplete demoOldRow = true ∧ ([demoOldRow] : List RawRecord).length ≤ demoRows.length :=
  ⟨(c7_clean_invariant demoRows [demoOldRow] (by decide)).1 demoOldRow (by decide),
   (c7_clean_invariant demoRows [demoOldRow] (by decide)).2⟩

/-- C8: the set of chart filenames produced from the cleaned dataset is
determined by the grouping-key values alone: reordering the collected
rows (the only run-to-run variation for identical inputs, since
directory listing order is arbitrary) yields the identical set of
output filenames. -/
theorem c8_chart_names_perm_invariant (rows rows2 : List RawRecord)
    (h : rows.Perm rows2) :
    (NewAnalyze.chartFiles ((rows.filter rowComplete).filterMap toClean)).toFinset =
      (NewAnalyze.chartFiles ((rows2.filter rowComplete).filterMap toClean)).toFinset := by
  have hp : ((rows.filter rowComplete).filterMap toClean).Perm
      ((rows2.filter rowComplete).filterMap toClean) := (h.filter _).filterMap _
  ext x
  simp only [List.mem_toFinset, mem_chartFiles, hp.mem_iff]

/-- C8 witness: swapping two collected rows leaves the chart-name set
unchanged. -/
theorem c8_chart_names_perm_invariant_witness :
    ([demoOldRow, demoRawB] : List RawRecord).Perm [demoRawB, demoOldRow] ∧
    (NewAnalyze.chartFiles (([demoOldRow, demoRawB].filter rowComplete).filterMap
        toClean)).toFinset =
      (NewAnalyze.chartFiles (([demoRawB, demoOldRow].filter rowComplete).filterMap
        toClean)).toFinset :=
  ⟨List.Perm.swap demoRawB demoOldRow [],
   c8_chart_names_perm_invariant [demoOldRow, demoRawB] [demoRawB, demoOldRow]
    (List.Perm.swap demoRawB demoOldRow [])⟩

/-- C9 counterexample: in plot.py's `draw_bar_plot` the normalization is
`plt.Normalize(vmin=0, vmax=max(values))`, so for the group values
100 and 200 the minimum bar sits at gradient position 1/2, not at the
gradient's low end as the claim states. -/
theorem c9_gradient_counterexample :
    normPlotChart 100 [200] 100 = 1 / 2 ∧ ((1 : Rat) / 2) ≠ 0 := by
  constructor
  · norm_num [normPlotChart, pltNormalize, seriesMax]
  · norm_num

/-- C9 as amended: in new_analyze_results.py's per-(dataset, table-size)
chart the gradient is normalized to the group's observed minimum and
maximum (the minimum maps to the low end 0 and the maximum to the high
end 1), while in plot.py's `draw_bar_plot` the lower bound is fixed at
0: the maximum still maps to the high end, but the minimum maps to
min/max of the scale, reaching the low end only when it is 0. -/
theorem c9_gradient_amended (x : Rat) (l : List Rat)
    (hlt : seriesMin x l < seriesMax x l) (hpos : 0 < seriesMax x l) :
    normNewChart x l (seriesMin x l) = 0 ∧
    normNewChart x l (seriesMax x l) = 1 ∧
    normPlotChart x l (seriesMax x l) = 1 ∧
    normPlotChart x l (seriesMin x l) = seriesMin x l / seriesMax x l := by
  refine ⟨?_, ?_, ?_, ?_⟩
  · simp [normNewChart, pltNormalize]
  · rw [normNewChart, pltNormalize]
    exact div_self (sub_ne_zero.mpr hlt.ne')
  · rw [normPlotChart, pltNormalize, sub_zero]
    exact div_self (ne_of_gt hpos)
  · rw [normPlotChart, pltNormalize, sub_zero, sub_zero]

/-- C9 witness: the amended statement evaluated on the group 100, 200. -/
theorem c9_gradient_amended_witness :
    seriesMin (100 : Rat) [200] < seriesMax 100 [200] ∧
    normNewChart 100 [200] (seriesMin 100 [200]) = 0 :=
  ⟨by norm_num [seriesMin, seriesMax],
   (c9_gradient_amended 100 [200] (by norm_num [seriesMin, seriesMax])
     (by norm_num [seriesMax])).1⟩

/-- C10: in both pandas scripts the plots directory is removed and
recreated before `os.path.isdir(results_dir)` is consulted, so a run
that aborts for a missing results directory still ends with an empty
plots directory, whatever images previous runs had left there. -/
theorem c10_prelude_destroys_plots (fs : Option (List String)) :
    pandasPrelude false fs = (.aborted, some []) := by
  cases fs <;> rfl
